import Mathlib

/-!
Verification of the Ann Arbor CDP scraper adapter
(`cdp_ann_arbor_backend/scraper.py`) against its specification.

The development shallowly embeds the adapter's pure logic:
* minutes-item name normalization (`get_minutes_item`),
* the event-minutes fix-up (`fix_event_minutes`),
* vote-decision resolution (`get_vote_decision`),
* the media locator (`get_content_uris`), modelled with an explicit
  fetch oracle for the network and explicit Python exception semantics
  (`KeyError` vs `TypeError` vs `AttributeError`), since the code's
  `try`/`except` clauses differ in what they catch.

External collaborators that live outside this repository
(`cdp_scrapers` base-class helpers, `cdp_backend` enumeration constants)
are modelled from the specification's words and marked as such.
-/

namespace AnnArbor

/-- Fuel-driven splitter over character lists: cuts the list at every
occurrence of the (nonempty) separator, keeping empty pieces, exactly as
Python `str.split(sep)` does. The fuel, instantiated to more than the
list's length, only makes the recursion structural. -/
def splitGo (sep : List Char) : Nat → List Char → List Char → List (List Char)
  | 0, xs, acc => [acc.reverse ++ xs]
  | Nat.succ n, xs, acc =>
    match xs with
    | [] => [acc.reverse]
    | c :: rest =>
      if sep.isPrefixOf xs then
        acc.reverse :: splitGo sep n (xs.drop sep.length) []
      else
        splitGo sep n rest (c :: acc)

/-- Python `s.split(sep)` for a nonempty separator (both
`str.split` and the splitting underlying `urlparse`/`rsplit`). -/
def strSplitOn (s sep : String) : List String :=
  if sep = "" then [s]
  else (splitGo sep.toList (s.toList.length + 1) s.toList []).map String.mk

/-- Characterwise lowercasing, the semantics of Python `str.lower()` on
the ASCII vote values in scope. -/
def strToLower (s : String) : String :=
  String.mk (s.toList.map Char.toLower)

/-- Python truthiness of an optional string: `None` and `""` are falsy. -/
def truthyStr : Option String → Bool
  | none => false
  | some s => s ≠ ""

/-- Python truthiness of an optional list: `None` and `[]` are falsy. -/
def truthyList {α : Type} : Option (List α) → Bool
  | none => false
  | some l => !l.isEmpty

/-- Modelled from the spec: `MatterStatusDecision.IN_PROGRESS`, the external
`cdp_backend` constant for the "in progress" matter status. -/
def MatterStatusDecision_IN_PROGRESS : String := "in progress"

/-- Modelled from the spec: `EventMinutesItemDecision.PASSED`, the external
`cdp_backend` constant the spec renders as the decision "passed". -/
def EventMinutesItemDecision_PASSED : String := "passed"

/-- Modelled from the spec: `EventMinutesItemDecision.FAILED`, the external
`cdp_backend` constant the spec renders as the decision "failed". -/
def EventMinutesItemDecision_FAILED : String := "failed"

/-- Modelled from the spec: `VoteDecision.APPROVE`, the external
`cdp_backend` constant for an approving vote. -/
def VoteDecision_APPROVE : String := "approve"

/-- Modelled from the spec: `VoteDecision.REJECT`, the external
`cdp_backend` constant for a rejecting vote. -/
def VoteDecision_REJECT : String := "reject"

/-- The fields of a raw Legistar `EventItem` dict that the embedded
functions read: the action name, agenda number, minutes-item name and
external id (for `get_minutes_item`), and the raw `EventItemMatterStatus`
(for `fix_event_minutes`). A JSON `null` is `none`. -/
structure LegistarEvItem where
  EventItemActionName : Option String
  EventItemAgendaNumber : Option String
  EventItemTitle : Option String
  EventItemMinutesItemId : String
  EventItemMatterStatus : Option String
deriving DecidableEq, Repr

/-- The two fields of a raw Legistar vote dict that
`get_vote_decision` reads: `VoteValueName` and `VoteValueId`.
A JSON `null` is `none`. -/
structure RawVote where
  VoteValueName : Option String
  VoteValueId : Option Int
deriving DecidableEq, Repr

/-- The `cdp_backend` `MinutesItem` ingestion model (the two fields this
adapter populates). -/
structure MinutesItem where
  external_source_id : String
  name : String
deriving DecidableEq, Repr

/-- The `cdp_backend` `Vote` ingestion model (the fields this adapter
populates). -/
structure Vote where
  decision : Option String
  external_source_id : String
  person : Option String
deriving DecidableEq, Repr

/-- The `cdp_backend` `Matter` ingestion model (representative fields; the
fix-up touches only `result_status`). -/
structure Matter where
  name : Option String
  matter_type : Option String
  title : Option String
  result_status : Option String
  external_source_id : Option String
deriving DecidableEq, Repr

/-- The `cdp_scrapers` `EventMinutesItem` ingestion model. -/
structure EventMinutesItem where
  index : Int
  minutes_item : Option MinutesItem
  votes : Option (List Vote)
  matter : Option Matter
  decision : Option String
  supporting_files : List String
deriving DecidableEq, Repr

/-- Splits a character list into its maximal whitespace-free runs. -/
def wsWordsAux : List Char → List Char → List (List Char)
  | [], acc => if acc.isEmpty then [] else [acc.reverse]
  | c :: rest, acc =>
    if c.isWhitespace then
      if acc.isEmpty then wsWordsAux rest [] else acc.reverse :: wsWordsAux rest []
    else
      wsWordsAux rest (c :: acc)

/-- Modelled from the spec: `str_simplified` from the external
`cdp_scrapers.scraper_utils` — strips leading/trailing whitespace and
collapses internal whitespace runs, so a whitespace-only string becomes
empty; a JSON `null` passes through. -/
def str_simplified (s : Option String) : Option String :=
  s.map (fun t =>
    String.intercalate " " ((wsWordsAux t.toList []).map String.mk))

/-- The fixed action remap table of `get_minutes_item`
(`action_to_present_tense_map`). -/
def action_to_present_tense_map : List (String × String) :=
  [("Approved", ""), ("Postponed", "Postpone"), ("Referred", "Refer")]

/-- Python `action_to_present_tense_map.get(action, action)`: the normalized
action, defaulting to the action itself; a `None` action stays `None`
(no key of the dict is `None`). -/
def normalized_action : Option String → Option String
  | none => none
  | some a => some ((action_to_present_tense_map.lookup a).getD a)

/-- The list `minutes_item_name_parts` of `get_minutes_item`:
normalized action, simplified agenda number, simplified minutes name. -/
def minutes_item_name_parts (item : LegistarEvItem) : List (Option String) :=
  [normalized_action (str_simplified item.EventItemActionName),
   str_simplified item.EventItemAgendaNumber,
   str_simplified item.EventItemTitle]

/-- The name `": ".join(p for p in minutes_item_name_parts if p)`:
joins the parts with ": ", skipping Python-falsy parts
(`None` and the empty string). -/
def minutes_item_name (item : LegistarEvItem) : String :=
  String.intercalate ": "
    (((minutes_item_name_parts item).filterMap id).filter (· ≠ ""))

/-- Modelled from the spec: `get_none_if_empty` from the external
scraper base class; per the enclosing docstring it yields `None`
exactly when the assembled `MinutesItem.name` is empty. -/
def get_none_if_empty (m : MinutesItem) : Option MinutesItem :=
  if m.name = "" then none else some m

/-- Embedding of `AnnArborScraper.get_minutes_item`. -/
def get_minutes_item (item : LegistarEvItem) : Option MinutesItem :=
  get_none_if_empty
    { external_source_id := item.EventItemMinutesItemId
      name := minutes_item_name item }

/-- Embedding of `AnnArborScraper.fix_event_minutes`: when the item has a matter with
a falsy `result_status`, and has truthy votes and a truthy raw
`EventItemMatterStatus`, force `result_status = IN_PROGRESS`; a falsy
(`None`) item passes through. -/
def fix_event_minutes (ev_minutes_item : Option EventMinutesItem)
    (legistar_ev_item : LegistarEvItem) : Option EventMinutesItem :=
  match ev_minutes_item with
  | none => none
  | some e =>
    match e.matter with
    | none => some e
    | some m =>
      if ¬ truthyStr m.result_status ∧ truthyList e.votes
          ∧ truthyStr legistar_ev_item.EventItemMatterStatus then
        let m' := { m with result_status := some MatterStatusDecision_IN_PROGRESS }
        some { e with matter := some m' }
      else
        some e

/-- Whether `s` contains `pat` as a substring (`pat` nonempty):
the semantics of a successful `re.search` for a literal alternative. -/
def strContainsSub (s pat : String) : Bool :=
  (strSplitOn s pat).length ≠ 1

/-- Modelled from the spec: the generic vote-value pattern matcher of the
external scraper base class (`super().get_vote_decision`), configured at
construction with approve pattern `approve|favor|yes|yea` and reject
pattern `reject|oppose|no|nay`, matched case-insensitively against the
vote value name; a `null` name matches nothing, yielding no decision. -/
def base_get_vote_decision (v : RawVote) : Option String :=
  match v.VoteValueName with
  | none => none
  | some s =>
    let l := strToLower s
    if ["approve", "favor", "yes", "yea"].any (fun p => strContainsSub l p) then
      some VoteDecision_APPROVE
    else if ["reject", "oppose", "no", "nay"].any (fun p => strContainsSub l p) then
      some VoteDecision_REJECT
    else
      none

/-- Embedding of `AnnArborScraper.get_vote_decision`: when both `VoteValueName` and
`VoteValueId` are null, infer from the minutes-item decision
(passed ↦ approve, failed ↦ reject); in every remaining case delegate
to the base-class matcher. -/
def get_vote_decision (legistar_vote : RawVote)
    (minutes_item_decision : Option String) : Option String :=
  if legistar_vote.VoteValueName = none ∧ legistar_vote.VoteValueId = none then
    if minutes_item_decision = some EventMinutesItemDecision_PASSED then
      some VoteDecision_APPROVE
    else if minutes_item_decision = some EventMinutesItemDecision_FAILED then
      some VoteDecision_REJECT
    else
      base_get_vote_decision legistar_vote
  else
    base_get_vote_decision legistar_vote

/-- A decoded JSON value, the result of `json.loads` on a response body. -/
inductive Json where
  | null : Json
  | bool : Bool → Json
  | num : Int → Json
  | str : String → Json
  | arr : List Json → Json
  | obj : List (String × Json) → Json
deriving Repr

/-- The Python exceptions that can arise in the final, `except KeyError`
step of `get_content_uris`: a missing dict key (`KeyError`), subscripting
a non-dict with a string key (`TypeError`), and calling `.rsplit` on a
non-string (`AttributeError`). -/
inductive PyError where
  | keyError : PyError
  | typeError : PyError
  | attributeError : PyError
deriving DecidableEq, Repr

/-- Python subscripting `x[k]` with a string key on a decoded JSON value:
a dict either yields the value or raises `KeyError`; every other decoded
value raises `TypeError` for a string subscript. -/
def getItem : Json → String → Except PyError Json
  | Json.obj kvs, k =>
    match kvs.lookup k with
    | some v => Except.ok v
    | none => Except.error PyError.keyError
  | _, _ => Except.error PyError.typeError

/-- Python single-target unpacking `(x,) = v` on a decoded JSON value,
collapsed to `Option`: every failure (`ValueError` on wrong length,
`TypeError` on a non-iterable) is caught by the enclosing
`except Exception`. Iterating a one-character string yields that string;
iterating a one-entry dict yields its key. -/
def unpackOne : Json → Option Json
  | Json.arr [x] => some x
  | Json.str s => if s.length = 1 then some (Json.str s) else none
  | Json.obj [kv] => some (Json.str kv.1)
  | _ => none

mutual

/-- Python `str()` of a decoded JSON value, as interpolated by the
f-string building the VOD info URL (string escaping inside containers is
not modelled). -/
def pyStr : Json → String
  | Json.null => "None"
  | Json.bool b => cond b "True" "False"
  | Json.num n => toString n
  | Json.str s => s
  | Json.arr xs => "[" ++ pyReprList xs ++ "]"
  | Json.obj kvs => "\x7b" ++ pyReprPairs kvs ++ "\x7d"

/-- Python `repr()` of a decoded JSON value (used for container
elements). -/
def pyRepr : Json → String
  | Json.null => "None"
  | Json.bool b => cond b "True" "False"
  | Json.num n => toString n
  | Json.str s => "'" ++ s ++ "'"
  | Json.arr xs => "[" ++ pyReprList xs ++ "]"
  | Json.obj kvs => "\x7b" ++ pyReprPairs kvs ++ "\x7d"

/-- Comma-separated `repr`s of list elements. -/
def pyReprList : List Json → String
  | [] => ""
  | [j] => pyRepr j
  | j :: rest => pyRepr j ++ ", " ++ pyReprList rest

/-- Comma-separated `'key': repr(value)` renderings of dict entries. -/
def pyReprPairs : List (String × Json) → String
  | [] => ""
  | [(k, v)] => "'" ++ k ++ "': " ++ pyRepr v
  | (k, v) :: rest => "'" ++ k ++ "': " ++ pyRepr v ++ ", " ++ pyReprPairs rest

end

/-- The path component of `urlparse`, for the URL shapes in scope: the
part after the scheme separator and netloc, with query and fragment
stripped; a URL without a scheme separator is all path. -/
def urlparsePath (url : String) : String :=
  let withoutQueryFragment :=
    (strSplitOn ((strSplitOn url "?").headD "") "#").headD ""
  match strSplitOn withoutQueryFragment "://" with
  | [] => withoutQueryFragment
  | [_] => withoutQueryFragment
  | _ :: rest =>
    match strSplitOn (String.intercalate "://" rest) "/" with
    | [] => ""
    | [_netloc] => ""
    | _netloc :: pathParts => "/" ++ String.intercalate "/" pathParts

/-- Python `urlparse(media_url).path.split("/")[-1]`: the trailing path segment
of the media URL, used as the Cablecast show id. -/
def showIdOf (mediaUrl : String) : String :=
  (strSplitOn (urlparsePath mediaUrl) "/").getLastD ""

/-- The Cablecast show-metadata endpoint for a show id. -/
def showInfoUri (showId : String) : String :=
  "https://reflect-ctn.cablecast.tv/CablecastAPI/v1/shows/" ++ showId

/-- The Cablecast VOD-metadata endpoint for a VOD id (the id is
f-string-interpolated). -/
def vodInfoUri (vodId : Json) : String :=
  "https://reflect-ctn.cablecast.tv/CablecastAPI/v1/vods/" ++ pyStr vodId

/-- Python `s.rsplit("/", maxsplit=1)[0]`: everything before the last
`/`, or the whole string when there is none. -/
def rsplitSlashHead (s : String) : String :=
  let parts := strSplitOn s "/"
  if parts.length ≤ 1 then s else String.intercalate "/" parts.dropLast

/-- The `ContentURIs` result record of `cdp_scrapers.types`. -/
structure ContentURIs where
  video_uri : String
  caption_uri : String
deriving DecidableEq, Repr

instance {ε α : Type} [DecidableEq ε] [DecidableEq α] : DecidableEq (Except ε α) := fun x y =>
  match x, y with
  | Except.ok a, Except.ok b =>
    if h : a = b then isTrue (by rw [h]) else isFalse (fun hh => h (Except.ok.inj hh))
  | Except.ok _, Except.error _ => isFalse (fun hh => by cases hh)
  | Except.error _, Except.ok _ => isFalse (fun hh => by cases hh)
  | Except.error a, Except.error b =>
    if h : a = b then isTrue (by rw [h]) else isFalse (fun hh => h (Except.error.inj hh))

/-- Embedding of `AnnArborScraper.get_content_uris`, with the network as an explicit
fetch oracle: `fetch u = none` models any failure of
`urlopen`/`read`/`json.loads` at `u` (all caught by `except Exception`),
`some j` a successfully decoded payload. Returns the Python result
(or the escaping exception) together with the list of URLs fetched, in
order. Mirrors the source step for step: empty/missing media URL, show
fetch, `(vod_id,) = show_info["show"]["vods"]` under `except Exception`,
VOD fetch, and the final extraction under `except KeyError` only, where
a `TypeError` or `AttributeError` escapes. -/
def getContentUris (fetch : String → Option Json) (eventMedia : Option String) :
    Except PyError (List ContentURIs) × List String :=
  match eventMedia with
  | none => (Except.ok [], [])
  | some mediaUrl =>
    if mediaUrl = "" then (Except.ok [], [])
    else
      let sUri := showInfoUri (showIdOf mediaUrl)
      match fetch sUri with
      | none => (Except.ok [], [sUri])
      | some showInfo =>
        let vodIdOpt : Option Json :=
          match (getItem showInfo "show").bind (fun sh => getItem sh "vods") with
          | Except.error _ => none
          | Except.ok vods => unpackOne vods
        match vodIdOpt with
        | none => (Except.ok [], [sUri])
        | some vodId =>
          let vUri := vodInfoUri vodId
          match fetch vUri with
          | none => (Except.ok [], [sUri, vUri])
          | some vodInfo =>
            match (getItem vodInfo "vod").bind (fun v => getItem v "url") with
            | Except.error PyError.keyError => (Except.ok [], [sUri, vUri])
            | Except.error e => (Except.error e, [sUri, vUri])
            | Except.ok (Json.str vodUrl) =>
              (Except.ok [⟨vodUrl, rsplitSlashHead vodUrl ++ "/captions.vtt"⟩],
               [sUri, vUri])
            | Except.ok _ => (Except.error PyError.attributeError, [sUri, vUri])

/-- C6: the minutes-item action normalizer maps "Approved" to the empty
string, "Postponed" to "Postpone" and "Referred" to "Refer", and is the
identity on every action string outside this three-entry table. -/
theorem C6_action_table (a : String)
    (h1 : a ≠ "Approved") (h2 : a ≠ "Postponed") (h3 : a ≠ "Referred") :
    normalized_action (some "Approved") = some ""
    ∧ normalized_action (some "Postponed") = some "Postpone"
    ∧ normalized_action (some "Referred") = some "Refer"
    ∧ normalized_action (some a) = some a := by
  refine ⟨by decide, by decide, by decide, ?_⟩
  have e1 : (a == "Approved") = false := beq_eq_false_iff_ne.mpr h1
  have e2 : (a == "Postponed") = false := beq_eq_false_iff_ne.mpr h2
  have e3 : (a == "Referred") = false := beq_eq_false_iff_ne.mpr h3
  simp [normalized_action, action_to_present_tense_map, List.lookup, e1, e2, e3]

/-- Witness for C6 at the action string "Adopted". -/
theorem C6_action_table_witness :
    normalized_action (some "Adopted") = some "Adopted" :=
  (C6_action_table "Adopted" (by decide) (by decide) (by decide)).2.2.2

/-- C7: the minutes-item name joins the normalized action, agenda number
and minutes name with ": ", skipping Python-falsy (empty after
simplification) parts — ("Approved", "A-1", "Budget") yields
"A-1: Budget" with no leading separator — and the minutes item is absent
exactly when the resulting name is empty, as when all parts are empty. -/
theorem C7_minutes_item_name_join :
    (∀ item : LegistarEvItem,
      (get_minutes_item item).map MinutesItem.name =
        if minutes_item_name item = "" then none else some (minutes_item_name item))
    ∧ get_minutes_item ⟨some "Approved", some "A-1", some "Budget", "12", none⟩ =
        some ⟨"12", "A-1: Budget"⟩
    ∧ get_minutes_item ⟨some "", some "", some "", "7", none⟩ = none := by
  refine ⟨?_, by decide, by decide⟩
  intro item
  by_cases h : minutes_item_name item = "" <;>
    simp [get_minutes_item, get_none_if_empty, h]

/-- C3: for a raw vote whose value name and value id are both null, the
decision is approve when the minutes-item decision is "passed", reject
when it is "failed", and undetermined for any other minutes-item
decision, including None. -/
theorem C3_null_vote_inference (v : RawVote) (d : Option String)
    (hn : v.VoteValueName = none) (hi : v.VoteValueId = none)
    (hp : d ≠ some EventMinutesItemDecision_PASSED)
    (hf : d ≠ some EventMinutesItemDecision_FAILED) :
    get_vote_decision v (some EventMinutesItemDecision_PASSED) = some VoteDecision_APPROVE
    ∧ get_vote_decision v (some EventMinutesItemDecision_FAILED) = some VoteDecision_REJECT
    ∧ get_vote_decision v d = none := by
  refine ⟨?_, ?_, ?_⟩
  · simp [get_vote_decision, hn, hi]
  · simp [get_vote_decision, hn, hi,
      EventMinutesItemDecision_PASSED, EventMinutesItemDecision_FAILED]
  · simp [get_vote_decision, hn, hi, hp, hf, base_get_vote_decision]

/-- Witness for C3 at the both-null vote with a None minutes-item
decision. -/
theorem C3_null_vote_inference_witness :
    get_vote_decision ⟨none, none⟩ (some EventMinutesItemDecision_PASSED) =
        some VoteDecision_APPROVE
    ∧ get_vote_decision ⟨none, none⟩ (some EventMinutesItemDecision_FAILED) =
        some VoteDecision_REJECT
    ∧ get_vote_decision ⟨none, none⟩ none = none :=
  C3_null_vote_inference ⟨none, none⟩ none rfl rfl (by decide) (by decide)

/-- C8: when the vote value name or id is present, get_vote_decision
ignores the minutes-item decision and delegates to the base-class
pattern matcher; in particular value name "Yes" yields approve for
every minutes-item decision. -/
theorem C8_pattern_match_precedence (v : RawVote) (d : Option String)
    (h : ¬(v.VoteValueName = none ∧ v.VoteValueId = none)) :
    get_vote_decision v d = base_get_vote_decision v
    ∧ ∀ d' : Option String,
        get_vote_decision ⟨some "Yes", some 3⟩ d' = some VoteDecision_APPROVE := by
  constructor
  · simp [get_vote_decision, h]
  · intro d'
    have hb : base_get_vote_decision ⟨some "Yes", some 3⟩ =
        some VoteDecision_APPROVE := by decide
    simp [get_vote_decision, hb]

/-- Witness for C8 at the vote with value name "Nay". -/
theorem C8_pattern_match_precedence_witness :
    get_vote_decision ⟨some "Nay", none⟩ (some EventMinutesItemDecision_PASSED) =
      base_get_vote_decision ⟨some "Nay", none⟩ :=
  (C8_pattern_match_precedence ⟨some "Nay", none⟩
    (some EventMinutesItemDecision_PASSED) (by decide)).1

/-- The matter with its `result_status` forced to IN_PROGRESS, the
update performed by `fix_event_minutes`. -/
def setInProgress (m : Matter) : Matter :=
  { m with result_status := some MatterStatusDecision_IN_PROGRESS }

/-- Unfolding of `fix_event_minutes` on a present item with a present
matter. -/
theorem fix_event_minutes_some (idx : Int) (mi : Option MinutesItem)
    (vs : Option (List Vote)) (m : Matter) (dec : Option String)
    (sf : List String) (item : LegistarEvItem) :
    fix_event_minutes (some ⟨idx, mi, vs, some m, dec, sf⟩) item =
      if ¬ truthyStr m.result_status ∧ truthyList vs
          ∧ truthyStr item.EventItemMatterStatus then
        some ⟨idx, mi, vs, some (setInProgress m), dec, sf⟩
      else some ⟨idx, mi, vs, some m, dec, sf⟩ := rfl

/-- A matter with every field unset. -/
def c2Matter : Matter := ⟨none, none, none, none, none⟩

/-- An event minutes item holding `c2Matter` and a single vote. -/
def c2Item : EventMinutesItem :=
  ⟨0, none, some [⟨none, "v1", none⟩], some c2Matter, none, []⟩

/-- A raw Legistar item whose `EventItemMatterStatus` is the empty
string: non-null, but Python-falsy. -/
def c2RawEmptyStatus : LegistarEvItem := ⟨none, none, none, "1", some ""⟩

/-- C2 counterexample: with the matter present and `result_status`
unset, one vote, and a non-null (but empty) raw `EventItemMatterStatus`,
`fix_event_minutes` leaves `result_status` unset instead of setting it
to IN_PROGRESS as the claim requires of every non-null raw status. -/
theorem C2_counterexample :
    c2RawEmptyStatus.EventItemMatterStatus ≠ none
    ∧ truthyList c2Item.votes = true
    ∧ c2Item.matter = some c2Matter
    ∧ c2Matter.result_status = none
    ∧ fix_event_minutes (some c2Item) c2RawEmptyStatus = some c2Item := by
  decide

/-- C2 amended: `fix_event_minutes` sets `matter.result_status` to
IN_PROGRESS exactly when the matter is present with a falsy (unset or
empty) `result_status`, the votes list is present and nonempty, and the
raw `EventItemMatterStatus` is non-null and nonempty; in every other
combination the item is returned unchanged. -/
theorem C2_amended (e : EventMinutesItem) (m : Matter) (item : LegistarEvItem)
    (hm : e.matter = some m) :
    (¬ truthyStr m.result_status ∧ truthyList e.votes
        ∧ truthyStr item.EventItemMatterStatus →
      fix_event_minutes (some e) item =
        some { e with matter := some (setInProgress m) })
    ∧ ((truthyStr m.result_status ∨ ¬ truthyList e.votes
        ∨ ¬ truthyStr item.EventItemMatterStatus) →
      fix_event_minutes (some e) item = some e) := by
  obtain ⟨idx, mi, vs, mat, dec, sf⟩ := e
  simp only at hm
  subst hm
  rw [fix_event_minutes_some]
  constructor
  · intro h
    rw [if_pos h]
  · intro h
    rw [if_neg (by tauto)]

/-- Witness for the amended C2 at a concrete item with one vote and raw
status "Held". -/
theorem C2_amended_witness :
    fix_event_minutes (some c2Item) ⟨none, none, none, "1", some "Held"⟩ =
      some { c2Item with matter := some (setInProgress c2Matter) } :=
  (C2_amended c2Item c2Matter ⟨none, none, none, "1", some "Held"⟩ rfl).1 (by decide)

/-- The fields of a Matter other than `result_status`. -/
def matterFrame (m : Matter) :
    Option String × Option String × Option String × Option String :=
  (m.name, m.matter_type, m.title, m.external_source_id)

/-- The fields of an EventMinutesItem other than
`matter.result_status` (matter presence included). -/
def emiFrame (e : EventMinutesItem) :
    Int × Option MinutesItem × Option (List Vote) × Option String × List String
      × Option (Option String × Option String × Option String × Option String) :=
  (e.index, e.minutes_item, e.votes, e.decision, e.supporting_files,
   e.matter.map matterFrame)

/-- C10: `fix_event_minutes` changes nothing outside
`matter.result_status` (a None input comes back None), and it is
idempotent. -/
theorem C10_frame_and_idempotent (emi : Option EventMinutesItem)
    (item : LegistarEvItem) :
    (fix_event_minutes emi item).map emiFrame = emi.map emiFrame
    ∧ fix_event_minutes (fix_event_minutes emi item) item =
        fix_event_minutes emi item := by
  cases emi with
  | none => exact ⟨rfl, rfl⟩
  | some e =>
    obtain ⟨idx, mi, vs, mat, dec, sf⟩ := e
    cases mat with
    | none => exact ⟨rfl, rfl⟩
    | some m =>
      by_cases h : ¬ truthyStr m.result_status ∧ truthyList vs
          ∧ truthyStr item.EventItemMatterStatus
      · constructor
        · rw [fix_event_minutes_some, if_pos h]
          simp [emiFrame, matterFrame, setInProgress]
        · rw [fix_event_minutes_some, if_pos h, fix_event_minutes_some,
            if_neg (by simp [setInProgress, truthyStr, MatterStatusDecision_IN_PROGRESS])]
      · constructor
        · rw [fix_event_minutes_some, if_neg h]
        · rw [fix_event_minutes_some, if_neg h, fix_event_minutes_some, if_neg h]

/-- C9: with a missing or empty media URL field, get_content_uris
returns the empty list immediately, fetching nothing, whatever the
network would have answered. -/
theorem C9_no_media_short_circuit (fetch : String → Option Json) :
    getContentUris fetch none = (Except.ok [], [])
    ∧ getContentUris fetch (some "") = (Except.ok [], []) := by
  exact ⟨rfl, rfl⟩

/-- C4: when the show metadata's vods list does not have exactly one
entry — zero entries or several — get_content_uris returns the empty
list (after the single show-metadata fetch), not an error and not a
partial result. -/
theorem C4_vods_not_single (fetch : String → Option Json) (mediaUrl : String)
    (showInfo : Json) (xs : List Json)
    (hm : mediaUrl ≠ "")
    (hf : fetch (showInfoUri (showIdOf mediaUrl)) = some showInfo)
    (hv : (getItem showInfo "show").bind (fun sh => getItem sh "vods") =
      Except.ok (Json.arr xs))
    (hlen : xs.length ≠ 1) :
    getContentUris fetch (some mediaUrl) =
      (Except.ok [], [showInfoUri (showIdOf mediaUrl)]) := by
  have hunp : unpackOne (Json.arr xs) = none := by
    match xs, hlen with
    | [], _ => rfl
    | [x], h => exact absurd rfl h
    | x :: y :: rest, _ => rfl
  simp [getContentUris, hm, hf, hv, hunp]

/-- A network oracle answering the show-metadata request for show 42
with an empty vods list. -/
def c4Fetch (u : String) : Option Json :=
  if u = showInfoUri "42" then
    some (Json.obj [("show", Json.obj [("vods", Json.arr [])])])
  else none

/-- Witness for C4 at a zero-VOD show payload. -/
theorem C4_vods_not_single_witness :
    getContentUris c4Fetch (some "https://ctn.a2gov.org/show/42") =
      (Except.ok [], [showInfoUri (showIdOf "https://ctn.a2gov.org/show/42")]) :=
  C4_vods_not_single c4Fetch "https://ctn.a2gov.org/show/42"
    (Json.obj [("show", Json.obj [("vods", Json.arr [])])]) []
    (by decide) (by rfl) (by rfl) (by decide)

/-- A network oracle whose VOD payload carries a null url: the vod and
url keys are present, but the value is not a string. -/
def c1Fetch (u : String) : Option Json :=
  if u = showInfoUri "42" then
    some (Json.obj [("show", Json.obj [("vods", Json.arr [Json.num 99])])])
  else if u = vodInfoUri (Json.num 99) then
    some (Json.obj [("vod", Json.obj [("url", Json.null)])])
  else none

/-- C1 counterexample: a malformed VOD payload whose url key holds null
makes get_content_uris raise AttributeError — the caption-derivation
step catches only KeyError — contradicting the claim that a malformed
payload at any step yields the empty list rather than an exception. -/
theorem C1_counterexample :
    (getContentUris c1Fetch (some "https://ctn.a2gov.org/show/42")).1 =
      Except.error PyError.attributeError := by
  decide

/-- Payloads whose vod-url extraction can only yield a string or fail by
a missing key: the vod entry, when present, is a dict, and its url,
when present, is a string. -/
def goodVodPayload (j : Json) : Bool :=
  match (getItem j "vod").bind (fun v => getItem v "url") with
  | Except.error PyError.keyError => true
  | Except.ok (Json.str _) => true
  | _ => false

/-- C1 amended: get_content_uris lets no exception escape — every
network failure, missing key or malformed payload yields the empty
list — provided each fetched payload is well-shaped at the final
vod-url extraction (its vod entry, when present, is a dict whose url,
when present, is a string); only there the code catches KeyError
alone, so other shape errors raise. -/
theorem C1_amended (fetch : String → Option Json) (media : Option String)
    (hgood : ∀ u j, fetch u = some j → goodVodPayload j = true) :
    ∃ l tr, getContentUris fetch media = (Except.ok l, tr) := by
  cases media with
  | none => exact ⟨[], [], rfl⟩
  | some m =>
    by_cases hm : m = ""
    · subst hm; exact ⟨[], [], rfl⟩
    · simp only [getContentUris]
      rw [if_neg hm]
      cases hfs : fetch (showInfoUri (showIdOf m)) with
      | none => exact ⟨[], _, rfl⟩
      | some showInfo =>
        dsimp only
        cases hsv : (getItem showInfo "show").bind (fun sh => getItem sh "vods") with
        | error e => exact ⟨[], _, rfl⟩
        | ok vods =>
          dsimp only
          cases hone : unpackOne vods with
          | none => exact ⟨[], _, rfl⟩
          | some vodId =>
            dsimp only
            cases hfv : fetch (vodInfoUri vodId) with
            | none => exact ⟨[], _, rfl⟩
            | some vodInfo =>
              dsimp only
              have hg := hgood _ _ hfv
              cases hvu : (getItem vodInfo "vod").bind (fun v => getItem v "url") with
              | error e =>
                cases e with
                | keyError => exact ⟨[], _, rfl⟩
                | typeError => simp [goodVodPayload, hvu] at hg
                | attributeError => simp [goodVodPayload, hvu] at hg
              | ok u =>
                cases u with
                | str s => exact ⟨_, _, rfl⟩
                | null => simp [goodVodPayload, hvu] at hg
                | bool b => simp [goodVodPayload, hvu] at hg
                | num n => simp [goodVodPayload, hvu] at hg
                | arr xs => simp [goodVodPayload, hvu] at hg
                | obj kvs => simp [goodVodPayload, hvu] at hg

/-- Witness for the amended C1: a network that always fails satisfies
the well-shapedness hypothesis vacuously. -/
theorem C1_amended_witness :
    ∃ l tr, getContentUris (fun _ => none)
      (some "https://ctn.a2gov.org/show/42") = (Except.ok l, tr) :=
  C1_amended (fun _ => none) (some "https://ctn.a2gov.org/show/42")
    (fun _ _ h => Option.noConfusion h)

/-- Appending a final piece to the nonempty tail processed by
`String.intercalate.go` appends one separator and the piece. -/
theorem intercalate_go_append (sep y : String) :
    ∀ (as : List String) (acc : String),
      String.intercalate.go acc sep (as ++ [y]) =
        String.intercalate.go acc sep as ++ sep ++ y := by
  intro as
  induction as with
  | nil => intro acc; rfl
  | cons a rest ih => intro acc; exact ih (acc ++ sep ++ a)

/-- Applying `String.intercalate` to a nonempty list with one extra final piece
appends one separator and the piece. -/
theorem intercalate_append_single (sep y : String) (xs : List String)
    (h : xs ≠ []) :
    String.intercalate sep (xs ++ [y]) = String.intercalate sep xs ++ sep ++ y := by
  cases xs with
  | nil => exact absurd rfl h
  | cons a as => exact intercalate_go_append sep y as a

/-- Written from the spec's words, for comparison with the code: the
caption URL is the playable URL with its last slash-delimited path
segment replaced by the fixed file name "captions.vtt". -/
def specCaptionUrl (u : String) : String :=
  String.intercalate "/" ((strSplitOn u "/").dropLast ++ ["captions.vtt"])

/-- On a URL containing at least one slash, the code's caption
derivation (`rsplit` head plus "/captions.vtt") agrees with the spec's
replace-the-last-segment reading. -/
theorem rsplit_caption_eq_spec (v : String)
    (h : 2 ≤ (strSplitOn v "/").length) :
    rsplitSlashHead v ++ "/captions.vtt" = specCaptionUrl v := by
  have hnotle : ¬ (strSplitOn v "/").length ≤ 1 := by omega
  have hdrop : (strSplitOn v "/").dropLast ≠ [] := by
    have hlen : (strSplitOn v "/").dropLast.length =
        (strSplitOn v "/").length - 1 := List.length_dropLast _
    intro hnil
    rw [hnil] at hlen
    simp at hlen
    omega
  rw [rsplitSlashHead, if_neg hnotle, specCaptionUrl,
    intercalate_append_single "/" "captions.vtt" _ hdrop,
    String.append_assoc]
  congr 1

/-- A network oracle whose VOD payload carries a playable url with no
slash in it. -/
def c5Fetch (u : String) : Option Json :=
  if u = showInfoUri "42" then
    some (Json.obj [("show", Json.obj [("vods", Json.arr [Json.num 99])])])
  else if u = vodInfoUri (Json.num 99) then
    some (Json.obj [("vod", Json.obj [("url", Json.str "video.mp4")])])
  else none

/-- C5 counterexample: a successful end-to-end lookup whose VOD url
"video.mp4" has no slash yields the caption URL
"video.mp4/captions.vtt", while replacing the last path segment of
"video.mp4" by "captions.vtt" gives "captions.vtt": the code appends
instead of replacing. -/
theorem C5_counterexample :
    getContentUris c5Fetch (some "https://ctn.a2gov.org/show/42") =
      (Except.ok [⟨"video.mp4", "video.mp4/captions.vtt"⟩],
       [showInfoUri "42", vodInfoUri (Json.num 99)])
    ∧ specCaptionUrl "video.mp4" = "captions.vtt"
    ∧ "video.mp4/captions.vtt" ≠ "captions.vtt" := by
  decide

/-- C5 amended: whenever the media lookup returns without an exception,
it emits either nothing or a single all-or-nothing video/caption pair,
and whenever the VOD url contains at least one slash the caption URL is
that url with its last path segment replaced by "captions.vtt". -/
theorem C5_amended (fetch : String → Option Json) (media : Option String)
    (r : List ContentURIs) (tr : List String)
    (h : getContentUris fetch media = (Except.ok r, tr)) :
    r = [] ∨ ∃ v c, r = [⟨v, c⟩]
      ∧ (2 ≤ (strSplitOn v "/").length → c = specCaptionUrl v) := by
  cases media with
  | none =>
    simp only [getContentUris] at h
    cases h
    exact Or.inl rfl
  | some m =>
    by_cases hm : m = ""
    · subst hm
      simp only [getContentUris] at h
      cases h
      exact Or.inl rfl
    · simp only [getContentUris] at h
      rw [if_neg hm] at h
      cases hfs : fetch (showInfoUri (showIdOf m)) with
      | none => rw [hfs] at h; cases h; exact Or.inl rfl
      | some showInfo =>
        rw [hfs] at h
        dsimp only at h
        cases hsv : (getItem showInfo "show").bind (fun sh => getItem sh "vods") with
        | error e => rw [hsv] at h; cases h; exact Or.inl rfl
        | ok vods =>
          rw [hsv] at h
          dsimp only at h
          cases hone : unpackOne vods with
          | none => rw [hone] at h; cases h; exact Or.inl rfl
          | some vodId =>
            rw [hone] at h
            dsimp only at h
            cases hfv : fetch (vodInfoUri vodId) with
            | none => rw [hfv] at h; cases h; exact Or.inl rfl
            | some vodInfo =>
              rw [hfv] at h
              dsimp only at h
              cases hvu : (getItem vodInfo "vod").bind (fun v => getItem v "url") with
              | error e =>
                rw [hvu] at h
                cases e with
                | keyError => cases h; exact Or.inl rfl
                | typeError => cases h
                | attributeError => cases h
              | ok u =>
                rw [hvu] at h
                cases u with
                | str s =>
                  cases h
                  exact Or.inr ⟨s, rsplitSlashHead s ++ "/captions.vtt", rfl,
                    fun hs => rsplit_caption_eq_spec s hs⟩
                | null => cases h
                | bool b => cases h
                | num n => cases h
                | arr xs => cases h
                | obj kvs => cases h

/-- A network oracle performing a fully successful lookup with VOD url
"https://x/a/b/video.mp4". -/
def c5GoodFetch (u : String) : Option Json :=
  if u = showInfoUri "42" then
    some (Json.obj [("show", Json.obj [("vods", Json.arr [Json.num 99])])])
  else if u = vodInfoUri (Json.num 99) then
    some (Json.obj [("vod", Json.obj [("url", Json.str "https://x/a/b/video.mp4")])])
  else none

/-- Witness for the amended C5 at a successful lookup whose VOD url
contains slashes. -/
theorem C5_amended_witness :
    ([⟨"https://x/a/b/video.mp4", "https://x/a/b/captions.vtt"⟩] : List ContentURIs) = []
    ∨ ∃ v c,
        ([⟨"https://x/a/b/video.mp4", "https://x/a/b/captions.vtt"⟩] : List ContentURIs) =
          [⟨v, c⟩]
        ∧ (2 ≤ (strSplitOn v "/").length → c = specCaptionUrl v) :=
  C5_amended c5GoodFetch (some "https://ctn.a2gov.org/show/42")
    [⟨"https://x/a/b/video.mp4", "https://x/a/b/captions.vtt"⟩]
    [showInfoUri "42", vodInfoUri (Json.num 99)] (by decide)

end AnnArbor
